import Mathlib

/-!
Verification of the order-lifecycle state reconciliation logic of an
e-commerce backend.  The definitions below are a shallow embedding of the
route handlers and services that mutate `payment_status` and
`order_status` of an order:

* `app/api/routes/orders.py`: `create_order`, `track_order`, `cancel_order`
* `app/api/routes/payments.py`: `verify_razorpay_payment`
* `app/api/routes/admin_orders.py`: `update_order_status`, `create_shipment`
* `app/api/routes/delivery.py`: `handle_delivery_request` (update_status)
* `app/services/payment_service.py`: `PaymentService.verify_payment`
* `app/utils/order_id_generator.py`: `generate_order_id`

External HTTP collaborators (Razorpay, Shiprocket) are modelled as oracle
inputs: each embedded handler takes the adapter response it would have
received as an explicit argument.  Database commits are modelled by
explicit state passing on the single order row (and its delivery row)
that a handler touches.  Python falsiness of optional strings (None or
empty string) is modelled by `optTruthy`.
-/

namespace Backend

/-- Enumeration `OrderStatus` from `app/models/order.py`. -/
inductive OrderStatus where
  | pending
  | confirmed
  | processing
  | shipped
  | delivered
  | cancelled
  | refunded
  deriving DecidableEq, Repr

/-- Enumeration `PaymentStatus` from `app/models/order.py`. -/
inductive PaymentStatus where
  | pending
  | paid
  | failed
  | refunded
  | cod
  deriving DecidableEq, Repr

/-- Python truthiness of an optional string: `None` and the empty string
are falsy, everything else is truthy. -/
def optTruthy : Option String → Bool
  | none => false
  | some s => s ≠ ""

/-- Python `x or y` on optional strings: returns `x` when truthy,
otherwise `y`. -/
def pyOr (x y : Option String) : Option String :=
  if optTruthy x then x else y

/-- Whether the pattern list is a prefix of the second list. -/
def listStartsWith : List Char → List Char → Bool
  | [], _ => true
  | _ :: _, [] => false
  | p :: ps, c :: cs => p = c && listStartsWith ps cs

/-- Whether the pattern list occurs as a contiguous sublist. -/
def listHasInfix (pat : List Char) : List Char → Bool
  | [] => listStartsWith pat []
  | c :: cs => listStartsWith pat (c :: cs) || listHasInfix pat cs

/-- Python `str.lower` on a string, character-wise (ASCIIize suffices for
the status keywords the handlers compare). -/
def strLower (s : String) : String := ⟨s.data.map Char.toLower⟩

/-- Python `str.upper` on a string, character-wise. -/
def strUpper (s : String) : String := ⟨s.data.map Char.toUpper⟩

/-- Python `pat in s` on strings: substring containment. -/
def strContains (s pat : String) : Bool :=
  listHasInfix pat.data s.data

/-- Character-wise model of Python `str.title`: the first alphabetic
character of each run is upper-cased, following ones lower-cased. -/
def titlecaseAux : Bool → List Char → List Char
  | _, [] => []
  | prevAlpha, c :: cs =>
    (if prevAlpha then c.toLower else c.toUpper) :: titlecaseAux c.isAlpha cs

/-- Python `str.title` on a string. -/
def titlecase (s : String) : String :=
  ⟨titlecaseAux false s.data⟩

/-- The mutable columns of one row of the `orders` table that the
reconciliation handlers read or write (`app/models/order.py`, plus the
Shiprocket attributes the route handlers attach to the row). -/
structure OrderState where
  order_id : String
  shipping_city : String
  shipping_state : String
  payment_status : PaymentStatus
  payment_method : String
  order_status : OrderStatus
  waybill_number : Option String
  shiprocket_order_id : Option String
  shipment_id : Option String
  awb_code : Option String
  courier_id : Option String
  courier_name : Option String
  razorpay_order_id : Option String
  razorpay_payment_id : Option String
  admin_notes : Option String
  delivered_at : Option Nat
  deriving DecidableEq, Repr

/-- One entry of a delivery tracking history (status, location,
timestamp, description), as the dictionaries appended in the routes. -/
structure TrackingEntry where
  status : String
  location : String
  timestamp : Nat
  description : String
  deriving DecidableEq, Repr

/-- The mutable columns of one row of the `deliveries` table that the
handlers read or write (`app/models/delivery.py`). -/
structure DeliveryState where
  shipment_id : Option String
  waybill_number : Option String
  current_status : String
  current_location : Option String
  picked_up_at : Option Nat
  in_transit_at : Option Nat
  out_for_delivery_at : Option Nat
  delivered_at : Option Nat
  tracking_history : List TrackingEntry
  deriving DecidableEq, Repr

/-- The `.value` string of an `OrderStatus` member (string enum). -/
def OrderStatus.value : OrderStatus → String
  | .pending => "pending"
  | .confirmed => "confirmed"
  | .processing => "processing"
  | .shipped => "shipped"
  | .delivered => "delivered"
  | .cancelled => "cancelled"
  | .refunded => "refunded"

/-- Constructing an `OrderStatus` from its value string, as the Python
call `OrderStatus(request.status)` does. -/
def OrderStatus.ofString : String → Option OrderStatus
  | "pending" => some .pending
  | "confirmed" => some .confirmed
  | "processing" => some .processing
  | "shipped" => some .shipped
  | "delivered" => some .delivered
  | "cancelled" => some .cancelled
  | "refunded" => some .refunded
  | _ => none

/-- The `valid_statuses` list of `update_order_status` in
`app/api/routes/admin_orders.py`. -/
def valid_statuses : List String :=
  ["pending", "confirmed", "processing", "shipped", "delivered", "cancelled", "refunded"]

/-- Admin endpoint `update_order_status` (`app/api/routes/admin_orders.py`,
lines 126-176): validates the requested status string against
`valid_statuses`, then sets `order_status` unconditionally, stamping
`delivered_at` on a first transition to delivered.  Errors are the raised
`HTTPException`s. -/
def update_order_status (o : OrderState) (status : String) (now : Nat) :
    Except String OrderState :=
  if status ∈ valid_statuses then
    match OrderStatus.ofString status with
    | some st =>
      let o1 := { o with order_status := st }
      Except.ok (if status = "delivered" ∧ o.delivered_at = none then
        { o1 with delivered_at := some now } else o1)
    | none => Except.error "Invalid status"
  else Except.error "Invalid status"

/-- Response payload of the admin ship endpoint. -/
structure ShipResponse where
  success : Bool
  message : String
  waybill_number : Option String
  deriving DecidableEq, Repr

/-- Admin endpoint `create_shipment` (`app/api/routes/admin_orders.py`,
lines 179-233): refuses when a waybill already exists, otherwise stores a
fresh waybill `WB` plus twelve random digits (the random digits are an
oracle argument) and sets the status to shipped. -/
def create_shipment (o : OrderState) (randomDigits : String) :
    OrderState × ShipResponse :=
  if optTruthy o.waybill_number then
    (o, ⟨false, "Shipment already exists", o.waybill_number⟩)
  else
    let waybill := "WB" ++ randomDigits
    ({ o with waybill_number := some waybill, order_status := OrderStatus.shipped },
     ⟨true, "Shipment created successfully", some waybill⟩)

/-- The `status_update` dictionary of the delivery status endpoint. -/
structure StatusUpdate where
  status : String
  location : Option String
  description : Option String
  deriving DecidableEq, Repr

/-- The `update_status` action of `handle_delivery_request`
(`app/api/routes/delivery.py`, lines 250-309): records the new delivery
status, stamps one of the four milestone timestamps by keyword matching
on the lower-cased status (picked/pickup first, then transit, then out
for delivery, then delivered), promotes the order to delivered only in
the delivered branch, and appends a tracking-history entry. -/
def handle_update_status (d : DeliveryState) (o : OrderState) (su : StatusUpdate)
    (now : Nat) : DeliveryState × OrderState :=
  let d1 := { d with current_status := su.status }
  let d2 := if optTruthy su.location then { d1 with current_location := su.location } else d1
  let sl := strLower su.status
  let step :=
    if strContains sl "picked" || strContains sl "pickup" then
      ({ d2 with picked_up_at := some now }, o)
    else if strContains sl "transit" then
      ({ d2 with in_transit_at := some now }, o)
    else if strContains sl "out for delivery" then
      ({ d2 with out_for_delivery_at := some now }, o)
    else if strContains sl "delivered" then
      ({ d2 with delivered_at := some now },
       { o with order_status := OrderStatus.delivered, delivered_at := some now })
    else (d2, o)
  let entry : TrackingEntry :=
    { status := su.status
      location := (pyOr su.location step.1.current_location).getD ""
      timestamp := now
      description := (pyOr su.description (some ("Package " ++ su.status))).getD "" }
  ({ step.1 with tracking_history := step.1.tracking_history ++ [entry] }, step.2)

/-- Python truthiness of `delivery and delivery.shipment_id` for an
optional delivery row. -/
def hasShipmentId : Option DeliveryState → Bool
  | some dd => optTruthy dd.shipment_id
  | none => false

/-- Result of `shiprocket_service.get_order_details`. -/
structure OrderDetailsResult where
  success : Bool
  status : String
  deriving DecidableEq, Repr

/-- Result of `shiprocket_service.track_shipment`. -/
structure LiveTrackingResult where
  success : Bool
  current_status : String
  deriving DecidableEq, Repr

/-- The status-reconciliation portion of `track_order`
(`app/api/routes/orders.py`, lines 742-818) runs two blocks in sequence;
the two Shiprocket calls are oracle arguments, with `none` standing for a
raised exception, which the handler catches and ignores.  This is the
FIRST block: when the order has a truthy Shiprocket order id, its
order-details status is compared (upper-cased) with CANCELED and a match
cancels the order. -/
def track_order_details_step (o : OrderState) (d : Option DeliveryState)
    (orderDetails : Option OrderDetailsResult) : OrderState × Option DeliveryState :=
  if optTruthy o.shiprocket_order_id then
    match orderDetails with
    | some od =>
      if od.success ∧ strUpper od.status = "CANCELED" then
        if o.order_status ≠ OrderStatus.cancelled then
          ({ o with order_status := OrderStatus.cancelled },
           d.map (fun dd => { dd with current_status := "CANCELED" }))
        else (o, d)
      else (o, d)
    | none => (o, d)
  else (o, d)

/-- The live-tracking block of `track_order` (the SECOND check): when a
delivery with a truthy shipment id exists and the order is not cancelled,
the live current status is classified by lower-cased keyword matching. -/
def track_live_step (o1 : OrderState) (d1 : Option DeliveryState)
    (live : Option LiveTrackingResult) : OrderState × Option DeliveryState :=
  if hasShipmentId d1 ∧ o1.order_status ≠ OrderStatus.cancelled then
    match live with
    | some lt =>
      if lt.success then
        let s := strLower lt.current_status
        if strContains s "delivered" then
          if o1.order_status ≠ OrderStatus.delivered then
            ({ o1 with order_status := OrderStatus.delivered },
             d1.map (fun dd => { dd with current_status := "Delivered" }))
          else (o1, d1)
        else if strContains s "transit" || strContains s "picked" ||
            strContains s "dispatched" || strContains s "out for delivery" then
          if o1.order_status ≠ OrderStatus.shipped ∧ o1.order_status ≠ OrderStatus.delivered then
            ({ o1 with order_status := OrderStatus.shipped },
             d1.map (fun dd => { dd with current_status := titlecase s }))
          else (o1, d1)
        else if strContains s "pickup scheduled" || strContains s "manifest" then
          if o1.order_status = OrderStatus.confirmed then
            ({ o1 with order_status := OrderStatus.processing },
             d1.map (fun dd => { dd with current_status := "Processing" }))
          else (o1, d1)
        else (o1, d1)
      else (o1, d1)
    | none => (o1, d1)
  else (o1, d1)

/-- Composition of the two reconciliation blocks, as the handler runs
them in sequence on the same order and delivery rows. -/
def track_order (o : OrderState) (d : Option DeliveryState)
    (orderDetails : Option OrderDetailsResult) (live : Option LiveTrackingResult) :
    OrderState × Option DeliveryState :=
  let s1 := track_order_details_step o d orderDetails
  track_live_step s1.1 s1.2 live

/-- Endpoint `cancel_order` (`app/api/routes/orders.py`, lines 878-911):
rejects when the order is delivered or already cancelled (no state
change), otherwise best-effort updates the delivery inside a try/except
(`notifyExn` is whether the shipment-provider cancellation attempt in
that block raises; the exception is swallowed) and then sets the order to
cancelled with an admin note built from the request reason. -/
def cancel_order (o : OrderState) (d : Option DeliveryState) (reason : Option String)
    (notifyExn : Bool) : Except String (OrderState × Option DeliveryState) :=
  if o.order_status = OrderStatus.delivered ∨ o.order_status = OrderStatus.cancelled then
    Except.error ("Cannot cancel order with status: " ++ o.order_status.value)
  else
    let d1 :=
      match d with
      | some dd =>
        if optTruthy dd.shipment_id then
          if notifyExn then some dd else some { dd with current_status := "Cancelled" }
        else some dd
      | none => none
    Except.ok
      ({ o with
          order_status := OrderStatus.cancelled,
          admin_notes := some ("Cancelled: " ++ reason.getD "User requested cancellation") },
       d1)

/-- Result dictionary of `PaymentService.verify_payment`
(`app/services/payment_service.py`). -/
structure PaymentVerifyResult where
  success : Bool
  verified : Bool
  error : Option String
  deriving DecidableEq, Repr

/-- `PaymentService.verify_payment` (`app/services/payment_service.py`,
lines 90-154).  `clientConfigured` is whether a Razorpay client with a
real secret exists; `hmacSignature` is the oracle value of the HMAC
SHA-256 of `razorpay_order_id|razorpay_payment_id` under the key secret;
`fetchExn` is whether the subsequent `payment.fetch` call raises (caught
by the outer except).  Without a configured client the mock path reports
a verified payment. -/
def PaymentService.verify_payment (clientConfigured : Bool)
    (hmacSignature razorpay_signature : String) (fetchExn : Bool) :
    PaymentVerifyResult :=
  if clientConfigured then
    if hmacSignature = razorpay_signature then
      if fetchExn then ⟨false, false, some "fetch failed"⟩
      else ⟨true, true, none⟩
    else ⟨false, false, some "Invalid signature"⟩
  else ⟨true, true, none⟩

/-- Result dictionary of `shiprocket_service.create_shipment` as the
routes consume it. -/
structure ShipmentResult where
  success : Bool
  shiprocket_order_id : Option String
  shipment_id : Option String
  awb_code : Option String
  waybill : Option String
  courier_id : Option String
  courier_name : Option String
  tracking_url : Option String
  message : Option String
  deriving DecidableEq, Repr

/-- JSON body returned by the payment verification endpoint. -/
structure VerifyResponse where
  success : Bool
  verified : Bool
  message : String
  deriving DecidableEq, Repr

/-- Full outcome of one call of the payment verification endpoint: the
order row afterwards, a freshly inserted delivery row when a shipment was
created, the JSON response, and whether the payment gateway adapter was
invoked during the call. -/
structure VerifyOutcome where
  order : Option OrderState
  delivery : Option DeliveryState
  response : VerifyResponse
  gateway_called : Bool
  deriving DecidableEq, Repr

/-- Endpoint `verify_razorpay_payment` (`app/api/routes/payments.py`,
lines 98-253).  The handler always calls
`payment_service.verify_payment` first (`vr` is its result, so
`gateway_called` is always true).  On a verified result it marks the
looked-up order paid and confirmed, then, only when the row has no truthy
`shiprocket_order_id`, attempts shipment creation (`ship` is the adapter
result, `none` standing for a raised exception, both failure modes
swallowed); success advances the order to processing and inserts a
delivery row.  On an unverified result nothing is written and a failure
body is returned. -/
def verify_razorpay_payment (razorpay_order_id razorpay_payment_id : String)
    (vr : PaymentVerifyResult) (o : Option OrderState) (ship : Option ShipmentResult)
    (now : Nat) : VerifyOutcome :=
  if vr.verified then
    match o with
    | some ord =>
      let ord1 := { ord with
        payment_status := PaymentStatus.paid,
        payment_method := "online",
        razorpay_payment_id := some razorpay_payment_id,
        razorpay_order_id := some razorpay_order_id,
        order_status := OrderStatus.confirmed }
      if optTruthy ord1.shiprocket_order_id then
        ⟨some ord1, none, ⟨true, true, "Payment verified successfully"⟩, true⟩
      else
        match ship with
        | some sr =>
          if sr.success then
            let ord2 := { ord1 with
              shiprocket_order_id := sr.shiprocket_order_id,
              shipment_id := sr.shipment_id,
              awb_code := pyOr sr.awb_code sr.waybill,
              courier_id := sr.courier_id,
              courier_name := some (sr.courier_name.getD "Shiprocket"),
              order_status := OrderStatus.processing }
            let delivery : DeliveryState := {
              shipment_id := ord2.shipment_id,
              waybill_number := ord2.awb_code,
              current_status := "Order Placed",
              current_location := some (ord2.shipping_city ++ ", " ++ ord2.shipping_state),
              picked_up_at := none,
              in_transit_at := none,
              out_for_delivery_at := none,
              delivered_at := none,
              tracking_history := [⟨"Order Placed",
                ord2.shipping_city ++ ", " ++ ord2.shipping_state, now,
                "Order confirmed and payment received"⟩] }
            ⟨some ord2, some delivery, ⟨true, true, "Payment verified successfully"⟩, true⟩
          else
            ⟨some ord1, none, ⟨true, true, "Payment verified successfully"⟩, true⟩
        | none =>
          ⟨some ord1, none, ⟨true, true, "Payment verified successfully"⟩, true⟩
    | none => ⟨none, none, ⟨true, true, "Payment verified successfully"⟩, true⟩
  else
    ⟨o, none, ⟨false, false, "Payment verification failed"⟩, true⟩

/-- `generate_order_id` (`app/utils/order_id_generator.py`, lines 7-18,
duplicated verbatim in `app/api/routes/orders.py`): `PD` followed by the
creation instant formatted at one-second granularity.  The wall clock is
modelled as the number of seconds (a Nat) and the fourteen-digit
`YYYYMMDDHHMMSS` rendering of it by its decimal representation, which
preserves the property that matters: the id depends on nothing but the
creation second. -/
def generate_order_id (now : Nat) : String :=
  "PD" ++ Nat.repr now

/-- Result of `shiprocket_service.check_pincode_serviceability` as
consumed by `calculate_shipping_cost` (defaults already applied). -/
structure ServiceabilityResult where
  serviceable : Bool
  shipping_charge : ℚ
  cod_charges : ℚ
  deriving DecidableEq, Repr

/-- Python `round(x, 2)` on a rational. -/
def round2 (x : ℚ) : ℚ := (round (x * 100) : ℤ) / 100

/-- Python `round(x, 3)` on a rational. -/
def round3 (x : ℚ) : ℚ := (round (x * 1000) : ℤ) / 1000

/-- `calculate_shipping_cost` (`app/api/routes/orders.py`, lines 109-161;
the second definition in the file, which shadows the first): free above a
999 subtotal, otherwise the Shiprocket serviceability quote (`sr` is the
adapter result, `none` standing for a raised exception, which falls back
to the flat rate). -/
def calculate_shipping_cost (subtotal : ℚ) (is_cod : Bool)
    (sr : Option ServiceabilityResult) : ℚ :=
  if subtotal ≥ 999 then 0
  else
    match sr with
    | some r =>
      if r.serviceable then
        round2 (r.shipping_charge + (if is_cod then r.cod_charges else 0))
      else 50
    | none => if subtotal < 999 then 50 else 0

/-- One line item of the create-order request body. -/
structure OrderItemSchema where
  productId : Nat
  productName : String
  quantity : Nat
  price : ℚ
  size : String
  unit : String
  deriving DecidableEq, Repr

/-- The shipping address of the create-order request body. -/
structure AddressSchema where
  fullName : String
  phone : String
  email : String
  address : String
  city : String
  state : String
  pincode : String
  landmark : Option String
  deriving DecidableEq, Repr

/-- The create-order request body (`CreateOrderRequest` in
`app/api/routes/orders.py`), with the optional client-side totals. -/
structure CreateOrderRequest where
  items : List OrderItemSchema
  shippingAddress : AddressSchema
  paymentMethod : String
  shippingCharge : ℚ
  codCharge : ℚ
  subtotal : ℚ
  total : Option ℚ
  deriving DecidableEq, Repr

/-- Success body of the create-order endpoint. -/
structure CreateOrderResponse where
  success : Bool
  message : String
  orderId : String
  awb_code : Option String
  deriving DecidableEq, Repr

/-- Full outcome of one call of the create-order endpoint: the order row
as committed (the row and its items are committed before the shipment
step, so it survives every error path), the delivery row when one was
inserted, and either the success body or the detail string of the raised
HTTP 500. -/
structure CreateOrderOutcome where
  committed_order : OrderState
  order : OrderState
  delivery : Option DeliveryState
  response : Except String CreateOrderResponse
  deriving Repr

/-- Endpoint `create_order` (`app/api/routes/orders.py`, lines 164-390).
When the client supplies a total, the financials are taken from the
request and the local variable `total_weight` is never assigned (modelled
as `none`); otherwise both are computed from the items.  The order row
(status confirmed, payment pending or cod) and its items are committed.
Building the Shiprocket payload reads `round(total_weight, 3)`: with
`total_weight` unassigned this raises `NameError`, which the outer except
turns into a generic HTTP 500 after the commit.  Otherwise the shipment
adapter is called (`ship`, with `none` for a raised exception): success
advances the row to processing with the Shiprocket references and inserts
a delivery row; failure writes an admin note and raises an HTTP 500 whose
detail embeds the adapter message. -/
def create_order (req : CreateOrderRequest) (serviceability : Option ServiceabilityResult)
    (ship : Option ShipmentResult) (warehouseCity : String) (now : Nat) :
    CreateOrderOutcome :=
  let fin : ℚ × ℚ × ℚ × Option ℚ :=
    match req.total with
    | some t => (req.subtotal, req.shippingCharge, t, none)
    | none =>
      let subtotal := (req.items.map (fun i => i.price * (i.quantity : ℚ))).sum
      let total_weight := (req.items.map (fun i => (i.quantity : ℚ) * 1)).sum
      let shipping_cost := calculate_shipping_cost subtotal (req.paymentMethod = "cod")
        serviceability
      (subtotal, shipping_cost, subtotal + shipping_cost, some total_weight)
  let order_id_str := generate_order_id now
  let new_order : OrderState := {
    order_id := order_id_str,
    shipping_city := req.shippingAddress.city,
    shipping_state := req.shippingAddress.state,
    payment_status := if req.paymentMethod = "cod" then PaymentStatus.cod
      else PaymentStatus.pending,
    payment_method := req.paymentMethod,
    order_status := OrderStatus.confirmed,
    waybill_number := none,
    shiprocket_order_id := none,
    shipment_id := none,
    awb_code := none,
    courier_id := none,
    courier_name := none,
    razorpay_order_id := none,
    razorpay_payment_id := none,
    admin_notes := none,
    delivered_at := none }
  match fin.2.2.2 with
  | none =>
    { committed_order := new_order, order := new_order, delivery := none,
      response := Except.error "Internal server error during order creation." }
  | some w =>
    let _payload_weight := round3 w
    match ship with
    | none =>
      { committed_order := new_order, order := new_order, delivery := none,
        response := Except.error "Internal server error during order creation." }
    | some sr =>
      if sr.success then
        let o2 := { new_order with
          order_status := OrderStatus.processing,
          shiprocket_order_id := sr.shiprocket_order_id,
          shipment_id := sr.shipment_id,
          awb_code := pyOr sr.awb_code sr.waybill,
          courier_id := sr.courier_id,
          waybill_number := pyOr sr.awb_code sr.waybill,
          courier_name := some (sr.courier_name.getD "Shiprocket") }
        let delivery : DeliveryState := {
          shipment_id := o2.shipment_id,
          waybill_number := o2.waybill_number,
          current_status := "Pickup Scheduled",
          current_location := some warehouseCity,
          picked_up_at := none,
          in_transit_at := none,
          out_for_delivery_at := none,
          delivered_at := none,
          tracking_history := [] }
        { committed_order := new_order, order := o2, delivery := some delivery,
          response := Except.ok
            ⟨true, "Order created successfully", order_id_str, o2.awb_code⟩ }
      else
        let error_detail := sr.message.getD "Shiprocket failed to create shipment."
        { committed_order := new_order,
          order := { new_order with
            admin_notes := some ("Shiprocket Failed (Live): " ++ reprStr sr) },
          delivery := none,
          response := Except.error
            ("Order placed but shipment booking failed. Please retry later or contact support. Error: "
              ++ error_detail) }

/-- Position of a fulfillment status on the Processing, Shipped,
Delivered chain of the spec; `none` for statuses off the chain. -/
def chainIdx : OrderStatus → Option Nat
  | .processing => some 0
  | .shipped => some 1
  | .delivered => some 2
  | _ => none

/-- A concrete shipping address used in witnesses. -/
def sampleAddress : AddressSchema :=
  ⟨"Asha Rao", "9876543210", "asha@example.com", "12 Lake Road", "Fatehpur",
   "Uttar Pradesh", "212601", none⟩

/-- A concrete line item used in witnesses. -/
def sampleItem : OrderItemSchema :=
  ⟨1, "Cold-Pressed Mustard Oil", 2, 540, "1L", "bottle"⟩

/-- A create-order request whose client supplied the totals. -/
def reqWithTotal : CreateOrderRequest :=
  ⟨[sampleItem], sampleAddress, "cod", 50, 0, 1080, some 1130⟩

/-- A create-order request that leaves the totals to the server. -/
def reqNoTotal : CreateOrderRequest :=
  ⟨[sampleItem], sampleAddress, "online", 0, 0, 0, none⟩

/-- A failed Shiprocket shipment-creation result. -/
def failShipment : ShipmentResult :=
  ⟨false, none, none, none, none, none, none, none, some "courier not assigned"⟩

/-- A successful Shiprocket shipment-creation result. -/
def okShipment : ShipmentResult :=
  ⟨true, some "SR1", some "SH1", some "AWB1", none, some "C7", some "Delhivery",
   some "https://track.example", none⟩

/-- A baseline order row used to build concrete scenarios. -/
def baseOrder : OrderState :=
  { order_id := "PD20250101120000",
    shipping_city := "Fatehpur",
    shipping_state := "Uttar Pradesh",
    payment_status := PaymentStatus.pending,
    payment_method := "online",
    order_status := OrderStatus.confirmed,
    waybill_number := none,
    shiprocket_order_id := none,
    shipment_id := none,
    awb_code := none,
    courier_id := none,
    courier_name := none,
    razorpay_order_id := none,
    razorpay_payment_id := none,
    admin_notes := none,
    delivered_at := none }

/-- An order already paid and processing, with a shipment booked. -/
def paidProcessingOrder : OrderState :=
  { baseOrder with
    payment_status := PaymentStatus.paid,
    order_status := OrderStatus.processing,
    shiprocket_order_id := some "SR1",
    shipment_id := some "SH1",
    awb_code := some "AWB1",
    waybill_number := some "AWB1",
    razorpay_order_id := some "ro_1",
    razorpay_payment_id := some "rp_1" }

/-- A cancelled order. -/
def cancelledOrder : OrderState :=
  { baseOrder with order_status := OrderStatus.cancelled }

/-- A delivered order. -/
def deliveredOrder : OrderState :=
  { baseOrder with order_status := OrderStatus.delivered }

/-- A shipped order. -/
def shippedOrder : OrderState :=
  { baseOrder with
    order_status := OrderStatus.shipped,
    shipment_id := some "SH1",
    waybill_number := some "AWB1" }

/-- A delivery row with a booked shipment. -/
def sampleDelivery : DeliveryState :=
  { shipment_id := some "SH1",
    waybill_number := some "AWB1",
    current_status := "In Transit",
    current_location := some "Kanpur",
    picked_up_at := some 10,
    in_transit_at := some 20,
    out_for_delivery_at := none,
    delivered_at := none,
    tracking_history := [] }

theorem chainIdx_le_two (s : OrderStatus) (i : Nat) (h : chainIdx s = some i) : i ≤ 2 := by
  cases s <;> simp [chainIdx] at h <;> omega

theorem track_order_details_step_status (o : OrderState) (d : Option DeliveryState)
    (od : Option OrderDetailsResult) :
    (track_order_details_step o d od).1.order_status = o.order_status
    ∨ (track_order_details_step o d od).1
      = { o with order_status := OrderStatus.cancelled } := by
  unfold track_order_details_step
  split
  · cases od with
    | none => left; rfl
    | some x =>
      dsimp only
      split
      · split
        · right; rfl
        · left; rfl
      · left; rfl
  · left; rfl

theorem track_live_step_cancelled (o1 : OrderState) (d1 : Option DeliveryState)
    (live : Option LiveTrackingResult) (h : o1.order_status = OrderStatus.cancelled) :
    track_live_step o1 d1 live = (o1, d1) := by
  unfold track_live_step
  simp [h]

theorem track_live_step_mono (o1 : OrderState) (d1 : Option DeliveryState)
    (live : Option LiveTrackingResult) (i j : Nat)
    (hi : chainIdx o1.order_status = some i)
    (hj : chainIdx (track_live_step o1 d1 live).1.order_status = some j) : i ≤ j := by
  cases ho : o1.order_status with
  | processing =>
    rw [ho] at hi; simp [chainIdx] at hi; omega
  | shipped =>
    rw [ho] at hi; simp [chainIdx] at hi
    unfold track_live_step at hj
    simp only [ho] at hj
    repeat split at hj
    all_goals simp_all [chainIdx]
    all_goals omega
  | delivered =>
    rw [ho] at hi; simp [chainIdx] at hi
    unfold track_live_step at hj
    simp only [ho] at hj
    repeat split at hj
    all_goals simp_all [chainIdx]
  | pending => rw [ho] at hi; simp [chainIdx] at hi
  | confirmed => rw [ho] at hi; simp [chainIdx] at hi
  | cancelled => rw [ho] at hi; simp [chainIdx] at hi
  | refunded => rw [ho] at hi; simp [chainIdx] at hi

theorem track_order_mono_helper (o : OrderState) (d : Option DeliveryState)
    (od : Option OrderDetailsResult) (live : Option LiveTrackingResult) (i j : Nat)
    (hi : chainIdx o.order_status = some i)
    (hj : chainIdx (track_order o d od live).1.order_status = some j) : i ≤ j := by
  unfold track_order at hj
  dsimp only at hj
  rcases track_order_details_step_status o d od with h | h
  · exact track_live_step_mono _ _ live i j (by rw [h]; exact hi) hj
  · rw [h, track_live_step_cancelled _ _ live (by rfl)] at hj
    simp [chainIdx] at hj

theorem handle_update_status_order (dl : DeliveryState) (o : OrderState)
    (su : StatusUpdate) (now : Nat) :
    (handle_update_status dl o su now).2 = o
    ∨ (handle_update_status dl o su now).2
      = { o with order_status := OrderStatus.delivered, delivered_at := some now } := by
  unfold handle_update_status
  dsimp only
  repeat' split
  all_goals simp

theorem handle_update_status_mono (dl : DeliveryState) (o : OrderState)
    (su : StatusUpdate) (now : Nat) (i j : Nat)
    (hi : chainIdx o.order_status = some i)
    (hj : chainIdx (handle_update_status dl o su now).2.order_status = some j) : i ≤ j := by
  rcases handle_update_status_order dl o su now with h | h <;> rw [h] at hj
  · rw [hi] at hj
    simp at hj
    omega
  · simp [chainIdx] at hj
    have := chainIdx_le_two _ _ hi
    omega

/-- C1 (amended): under tracking reconciliation and delivery status
updates the fulfillment status never moves backward along the chain
Processing, Shipped, Delivered. -/
theorem fulfillment_chain_monotone_under_sync :
    (∀ (o : OrderState) (d : Option DeliveryState) (od : Option OrderDetailsResult)
      (live : Option LiveTrackingResult) (i j : Nat),
      chainIdx o.order_status = some i →
      chainIdx (track_order o d od live).1.order_status = some j → i ≤ j)
    ∧ (∀ (dl : DeliveryState) (o : OrderState) (su : StatusUpdate) (now i j : Nat),
      chainIdx o.order_status = some i →
      chainIdx (handle_update_status dl o su now).2.order_status = some j → i ≤ j) :=
  ⟨fun o d od live i j hi hj => track_order_mono_helper o d od live i j hi hj,
   fun dl o su now i j hi hj => handle_update_status_mono dl o su now i j hi hj⟩

/-- C1 witness: the monotonicity theorem applied at a concrete shipped
order whose tracking event says in transit (rank stays 1). -/
theorem fulfillment_chain_monotone_witness : 1 ≤ 1 ∧ (1 : Nat) ≤ 2 :=
  ⟨fulfillment_chain_monotone_under_sync.1 shippedOrder (some sampleDelivery) none
      (some ⟨true, "In Transit"⟩) 1 1 (by decide) (by decide),
   fulfillment_chain_monotone_under_sync.2 sampleDelivery shippedOrder
      ⟨"Delivered", none, none⟩ 7 1 2 (by decide) (by decide)⟩

/-- C1 counterexample: the admin status-update operation moves a
delivered order back to processing, a backward move along the chain. -/
theorem admin_status_update_backward_counterexample :
    update_order_status deliveredOrder "processing" 7
      = Except.ok { deliveredOrder with order_status := OrderStatus.processing }
    ∧ chainIdx deliveredOrder.order_status = some 2
    ∧ chainIdx OrderStatus.processing = some 0 := by
  refine ⟨by rfl, by decide, by decide⟩

theorem track_order_details_step_ship (o : OrderState) (d : Option DeliveryState)
    (od : Option OrderDetailsResult) :
    hasShipmentId (track_order_details_step o d od).2 = hasShipmentId d := by
  unfold track_order_details_step
  split
  · cases od with
    | none => rfl
    | some x =>
      dsimp only
      split
      · split
        · cases d <;> simp [hasShipmentId]
        · rfl
      · rfl
  · rfl

theorem track_live_step_shipped (o1 : OrderState) (d1 : Option DeliveryState)
    (live : Option LiveTrackingResult)
    (h : (track_live_step o1 d1 live).1.order_status = OrderStatus.shipped) :
    o1.order_status = OrderStatus.shipped ∨ hasShipmentId d1 = true := by
  unfold track_live_step at h
  repeat split at h
  all_goals simp_all

theorem track_order_shipped_helper (o : OrderState) (d : Option DeliveryState)
    (od : Option OrderDetailsResult) (live : Option LiveTrackingResult)
    (h : (track_order o d od live).1.order_status = OrderStatus.shipped) :
    o.order_status = OrderStatus.shipped ∨ hasShipmentId d = true := by
  unfold track_order at h
  dsimp only at h
  rcases track_order_details_step_status o d od with h1 | h1
  · rcases track_live_step_shipped _ _ live h with h2 | h2
    · left; rw [← h1]; exact h2
    · right; rw [← track_order_details_step_ship o d od]; exact h2
  · rw [h1, track_live_step_cancelled _ _ live (by rfl)] at h
    simp at h

/-- C3 (amended): the admin ship endpoint only reaches shipped together
with a fresh non-empty waybill; tracking reconciliation promotes to
shipped only when the delivery row carries a truthy shipment id; the
delivery status update never promotes to shipped; but the admin
status-update endpoint is not covered (see the counterexample). -/
theorem shipped_requires_reference :
    (∀ (o : OrderState) (digits : String),
      (create_shipment o digits).2.success = true →
        (create_shipment o digits).1.order_status = OrderStatus.shipped
        ∧ (create_shipment o digits).1.waybill_number = some ("WB" ++ digits)
        ∧ ("WB" ++ digits) ≠ "")
    ∧ (∀ (o : OrderState) (d : Option DeliveryState) (od : Option OrderDetailsResult)
        (live : Option LiveTrackingResult),
      (track_order o d od live).1.order_status = OrderStatus.shipped →
        o.order_status = OrderStatus.shipped ∨ hasShipmentId d = true)
    ∧ (∀ (dl : DeliveryState) (o : OrderState) (su : StatusUpdate) (now : Nat),
      (handle_update_status dl o su now).2.order_status = OrderStatus.shipped →
        o.order_status = OrderStatus.shipped) := by
  refine ⟨?_, ?_, ?_⟩
  · intro o digits h
    by_cases hw : optTruthy o.waybill_number = true
    · unfold create_shipment at h
      rw [if_pos hw] at h
      simp at h
    · unfold create_shipment
      rw [if_neg hw]
      refine ⟨by simp, by simp, ?_⟩
      intro hc
      have h2 := congrArg String.length hc
      simp [String.length_append] at h2
      exact absurd h2.1 (by decide)
  · intro o d od live h
    exact track_order_shipped_helper o d od live h
  · intro dl o su now h
    rcases handle_update_status_order dl o su now with h1 | h1 <;> rw [h1] at h
    · exact h
    · simp at h

/-- C3 witness: the three positive parts applied at concrete inputs. -/
theorem shipped_requires_reference_witness :
    ((create_shipment baseOrder "123456789012").1.order_status = OrderStatus.shipped
      ∧ (create_shipment baseOrder "123456789012").1.waybill_number
          = some ("WB" ++ "123456789012")
      ∧ ("WB" ++ "123456789012") ≠ "")
    ∧ (paidProcessingOrder.order_status = OrderStatus.shipped
        ∨ hasShipmentId (some sampleDelivery) = true)
    ∧ shippedOrder.order_status = OrderStatus.shipped :=
  ⟨shipped_requires_reference.1 baseOrder "123456789012" (by decide),
   shipped_requires_reference.2.1 paidProcessingOrder (some sampleDelivery) none
      (some ⟨true, "picked up"⟩) (by decide),
   shipped_requires_reference.2.2 sampleDelivery shippedOrder ⟨"In Transit", none, none⟩ 7
      (by decide)⟩

/-- C3 counterexample: the admin status-update endpoint sets an order to
shipped although it has no waybill, shipment id or AWB code at all. -/
theorem admin_shipped_without_reference_counterexample :
    update_order_status baseOrder "shipped" 7
      = Except.ok { baseOrder with order_status := OrderStatus.shipped }
    ∧ baseOrder.waybill_number = none
    ∧ baseOrder.shipment_id = none
    ∧ baseOrder.awb_code = none := by
  exact ⟨by rfl, by rfl, by rfl, by rfl⟩

/-- C8 (amended): the order-tracking handler promotes to delivered
whenever the live status contains the substring delivered, but the
delivery status-update handler classifies picked and pickup keywords
first, so a delivered keyword only wins there when no
picked/pickup/transit/out-for-delivery keyword occurs, and a
picked/pickup match leaves the order untouched. -/
theorem tracking_classification_behavior :
    (∀ (o : OrderState) (d : Option DeliveryState) (lt : LiveTrackingResult),
      hasShipmentId d = true → o.order_status ≠ OrderStatus.cancelled →
      lt.success = true → strContains (strLower lt.current_status) "delivered" = true →
      (track_order o d none (some lt)).1.order_status = OrderStatus.delivered)
    ∧ (∀ (dl : DeliveryState) (o : OrderState) (su : StatusUpdate) (now : Nat),
      strContains (strLower su.status) "picked" = false →
      strContains (strLower su.status) "pickup" = false →
      strContains (strLower su.status) "transit" = false →
      strContains (strLower su.status) "out for delivery" = false →
      strContains (strLower su.status) "delivered" = true →
      (handle_update_status dl o su now).2.order_status = OrderStatus.delivered)
    ∧ (∀ (dl : DeliveryState) (o : OrderState) (su : StatusUpdate) (now : Nat),
      (strContains (strLower su.status) "picked" = true
        ∨ strContains (strLower su.status) "pickup" = true) →
      (handle_update_status dl o su now).2 = o) := by
  refine ⟨?_, ?_, ?_⟩
  · intro o d lt hd hc hs hdeliv
    have h1 : track_order_details_step o d none = (o, d) := by
      unfold track_order_details_step
      split <;> rfl
    unfold track_order
    dsimp only
    rw [h1]
    unfold track_live_step
    rw [if_pos ⟨hd, hc⟩]
    dsimp only
    rw [if_pos hs, if_pos hdeliv]
    by_cases hdel : o.order_status = OrderStatus.delivered
    · have hne : ¬o.order_status ≠ OrderStatus.delivered := by simpa using hdel
      rw [if_neg hne]
      simpa using hdel
    · rw [if_pos hdel]
  · intro dl o su now h1 h2 h3 h4 h5
    simp [handle_update_status, h1, h2, h3, h4, h5]
  · intro dl o su now h
    rcases h with h | h <;> simp [handle_update_status, h]

/-- C8 witness: the classification theorem applied at concrete inputs:
a live status Shipment Delivered promotes a processing order to
delivered; a bare DELIVERED delivery update promotes; a Picked Up
delivery update leaves the order untouched. -/
theorem tracking_classification_witness :
    (track_order paidProcessingOrder (some sampleDelivery) none
        (some ⟨true, "Shipment Delivered"⟩)).1.order_status = OrderStatus.delivered
    ∧ (handle_update_status sampleDelivery shippedOrder
        ⟨"DELIVERED", none, none⟩ 7).2.order_status = OrderStatus.delivered
    ∧ (handle_update_status sampleDelivery shippedOrder
        ⟨"Picked Up", none, none⟩ 7).2 = shippedOrder :=
  ⟨tracking_classification_behavior.1 paidProcessingOrder (some sampleDelivery)
      ⟨true, "Shipment Delivered"⟩ (by decide) (by decide) (by decide) (by decide),
   tracking_classification_behavior.2.1 sampleDelivery shippedOrder
      ⟨"DELIVERED", none, none⟩ 7 (by decide) (by decide) (by decide) (by decide) (by decide),
   tracking_classification_behavior.2.2 sampleDelivery shippedOrder
      ⟨"Picked Up", none, none⟩ 7 (Or.inl (by decide))⟩

/-- C8 counterexample: a tracking reconciliation call through the
delivery status-update endpoint whose raw status contains the substring
delivered leaves a shipped order shipped, because the pickup keyword is
classified first. -/
theorem delivered_substring_counterexample :
    strContains (strLower "Delivered at pickup point") "delivered" = true
    ∧ (handle_update_status sampleDelivery shippedOrder
        ⟨"Delivered at pickup point", none, none⟩ 7).2.order_status = OrderStatus.shipped
    ∧ OrderStatus.shipped ≠ OrderStatus.delivered := by
  exact ⟨by decide, by decide, by decide⟩

/-- C4 (amended): delivered and cancelled are not enforced as terminal:
a verified payment on a cancelled order succeeds and resets it to paid
and confirmed; a delivery status update classified delivered moves a
cancelled order to delivered; and tracking reconciliation moves a
delivered order to cancelled when the provider reports CANCELED. -/
theorem terminal_states_not_enforced :
    (∀ (ro rp : String) (vr : PaymentVerifyResult) (o : OrderState) (now : Nat),
      vr.verified = true → o.order_status = OrderStatus.cancelled →
      (verify_razorpay_payment ro rp vr (some o) none now).order
        = some { o with
            payment_status := PaymentStatus.paid,
            payment_method := "online",
            razorpay_payment_id := some rp,
            razorpay_order_id := some ro,
            order_status := OrderStatus.confirmed }
      ∧ (verify_razorpay_payment ro rp vr (some o) none now).response.success = true)
    ∧ (∀ (dl : DeliveryState) (o : OrderState) (su : StatusUpdate) (now : Nat),
      o.order_status = OrderStatus.cancelled →
      strContains (strLower su.status) "picked" = false →
      strContains (strLower su.status) "pickup" = false →
      strContains (strLower su.status) "transit" = false →
      strContains (strLower su.status) "out for delivery" = false →
      strContains (strLower su.status) "delivered" = true →
      (handle_update_status dl o su now).2.order_status = OrderStatus.delivered)
    ∧ (∀ (o : OrderState) (d : Option DeliveryState) (od : OrderDetailsResult)
        (live : Option LiveTrackingResult),
      o.order_status = OrderStatus.delivered → optTruthy o.shiprocket_order_id = true →
      od.success = true → strUpper od.status = "CANCELED" →
      (track_order o d (some od) live).1.order_status = OrderStatus.cancelled) := by
  refine ⟨?_, ?_, ?_⟩
  · intro ro rp vr o now hv hcan
    by_cases ht : optTruthy o.shiprocket_order_id = true <;>
      simp [verify_razorpay_payment, hv, ht]
  · intro dl o su now hcan h1 h2 h3 h4 h5
    simp [handle_update_status, h1, h2, h3, h4, h5]
  · intro o d od live hdel hs hsucc hcanc
    unfold track_order
    dsimp only
    have h1 : track_order_details_step o d (some od)
        = ({ o with order_status := OrderStatus.cancelled },
           d.map (fun dd => { dd with current_status := "CANCELED" })) := by
      unfold track_order_details_step
      rw [if_pos hs]
      dsimp only
      rw [if_pos ⟨hsucc, hcanc⟩, if_pos (show o.order_status ≠ OrderStatus.cancelled by
        rw [hdel]; decide)]
    rw [h1, track_live_step_cancelled _ _ live (by rfl)]

/-- C4 witness: the theorem applied on a cancelled order receiving a
verified payment, a cancelled order receiving a delivered update, and a
delivered order whose provider order details say CANCELED. -/
theorem terminal_states_not_enforced_witness :
    ((verify_razorpay_payment "ro_1" "rp_1" ⟨true, true, none⟩ (some cancelledOrder) none 5).order
        = some { cancelledOrder with
            payment_status := PaymentStatus.paid,
            payment_method := "online",
            razorpay_payment_id := some "rp_1",
            razorpay_order_id := some "ro_1",
            order_status := OrderStatus.confirmed }
      ∧ (verify_razorpay_payment "ro_1" "rp_1" ⟨true, true, none⟩ (some cancelledOrder) none 5).response.success
        = true)
    ∧ (handle_update_status sampleDelivery cancelledOrder ⟨"DELIVERED", none, none⟩ 7).2.order_status
      = OrderStatus.delivered
    ∧ (track_order { deliveredOrder with shiprocket_order_id := some "SR1" }
        (some sampleDelivery) (some ⟨true, "canceled"⟩) none).1.order_status
      = OrderStatus.cancelled :=
  ⟨terminal_states_not_enforced.1 "ro_1" "rp_1" ⟨true, true, none⟩ cancelledOrder 5
      (by decide) (by decide),
   terminal_states_not_enforced.2.1 sampleDelivery cancelledOrder ⟨"DELIVERED", none, none⟩ 7
      (by decide) (by decide) (by decide) (by decide) (by decide) (by decide),
   terminal_states_not_enforced.2.2 { deliveredOrder with shiprocket_order_id := some "SR1" }
      (some sampleDelivery) ⟨true, "canceled"⟩ none (by decide) (by decide) (by decide) (by decide)⟩

/-- C4 counterexample: a payment verification on a cancelled order is not
rejected: it answers success and rewrites the order to paid, so the order
state changes after the terminal state was reached. -/
theorem terminal_cancelled_counterexample :
    (verify_razorpay_payment "ro_1" "rp_1" ⟨true, true, none⟩ (some cancelledOrder) none 5).response.success
      = true
    ∧ (verify_razorpay_payment "ro_1" "rp_1" ⟨true, true, none⟩ (some cancelledOrder) none 5).order
      ≠ some cancelledOrder
    ∧ ((verify_razorpay_payment "ro_1" "rp_1" ⟨true, true, none⟩ (some cancelledOrder) none 5).order.map
        (fun x => x.payment_status)) = some PaymentStatus.paid := by
  exact ⟨by decide, by decide, by decide⟩

/-- C2 (amended): every verification call invokes the payment gateway
adapter, and a verified repeat call on an order that already has a
shipment books nothing new but rewrites the order to paid and confirmed,
so a repeat call on a processing order regresses it to confirmed. -/
theorem verify_payment_repeat_behavior :
    (∀ (ro rp : String) (vr : PaymentVerifyResult) (o : Option OrderState)
       (ship : Option ShipmentResult) (now : Nat),
      (verify_razorpay_payment ro rp vr o ship now).gateway_called = true)
    ∧ (∀ (ro rp : String) (vr : PaymentVerifyResult) (o : OrderState)
        (ship : Option ShipmentResult) (now : Nat),
      vr.verified = true → optTruthy o.shiprocket_order_id = true →
      (verify_razorpay_payment ro rp vr (some o) ship now).order
        = some { o with
            payment_status := PaymentStatus.paid,
            payment_method := "online",
            razorpay_payment_id := some rp,
            razorpay_order_id := some ro,
            order_status := OrderStatus.confirmed }
      ∧ (verify_razorpay_payment ro rp vr (some o) ship now).delivery = none) := by
  constructor
  · intro ro rp vr o ship now
    unfold verify_razorpay_payment
    by_cases h : vr.verified = true
    · rw [if_pos h]
      cases o with
      | none => rfl
      | some ord =>
        dsimp only
        split
        · rfl
        · cases ship with
          | none => rfl
          | some sr =>
            dsimp only
            split <;> rfl
    · rw [if_neg h]
  · intro ro rp vr o ship now hv ht
    simp [verify_razorpay_payment, hv, ht]

/-- C2 witness: the repeat-call theorem applied at a paid processing
order with a booked shipment. -/
theorem verify_payment_repeat_witness :
    (verify_razorpay_payment "ro_1" "rp_1" ⟨true, true, none⟩ (some paidProcessingOrder)
        (some okShipment) 5).gateway_called = true
    ∧ ((verify_razorpay_payment "ro_1" "rp_1" ⟨true, true, none⟩ (some paidProcessingOrder)
        (some okShipment) 5).order
      = some { paidProcessingOrder with
          payment_status := PaymentStatus.paid,
          payment_method := "online",
          razorpay_payment_id := some "rp_1",
          razorpay_order_id := some "ro_1",
          order_status := OrderStatus.confirmed }
      ∧ (verify_razorpay_payment "ro_1" "rp_1" ⟨true, true, none⟩ (some paidProcessingOrder)
          (some okShipment) 5).delivery = none) :=
  ⟨verify_payment_repeat_behavior.1 "ro_1" "rp_1" ⟨true, true, none⟩ (some paidProcessingOrder)
      (some okShipment) 5,
   verify_payment_repeat_behavior.2 "ro_1" "rp_1" ⟨true, true, none⟩ paidProcessingOrder
      (some okShipment) 5 (by decide) (by decide)⟩

/-- C2 counterexample: a second verification of an already paid,
processing order with the same proof still reaches the gateway adapter
and changes the stored state, regressing the fulfillment status from
processing to confirmed. -/
theorem verify_not_idempotent_counterexample :
    (verify_razorpay_payment "ro_1" "rp_1" ⟨true, true, none⟩ (some paidProcessingOrder) none 5).gateway_called
      = true
    ∧ (verify_razorpay_payment "ro_1" "rp_1" ⟨true, true, none⟩ (some paidProcessingOrder) none 5).order
      ≠ some paidProcessingOrder
    ∧ ((verify_razorpay_payment "ro_1" "rp_1" ⟨true, true, none⟩ (some paidProcessingOrder) none 5).order.map
        (fun x => x.order_status)) = some OrderStatus.confirmed
    ∧ paidProcessingOrder.order_status = OrderStatus.processing := by
  exact ⟨by decide, by decide, by decide, by decide⟩

/-- C5: cancellation is rejected without state change on a delivered or
cancelled order, cancels the order from every other status, and the
resulting order state does not depend on whether the best-effort
shipment-provider notification inside the try block raises. -/
theorem cancel_order_terminal_guard :
    ∀ (o : OrderState) (d : Option DeliveryState) (reason : Option String),
    ((o.order_status = OrderStatus.delivered ∨ o.order_status = OrderStatus.cancelled) →
      ∀ b, cancel_order o d reason b
        = Except.error ("Cannot cancel order with status: " ++ o.order_status.value))
    ∧ (o.order_status ≠ OrderStatus.delivered → o.order_status ≠ OrderStatus.cancelled →
      ∀ b, ∃ d1, cancel_order o d reason b
        = Except.ok ({ o with
            order_status := OrderStatus.cancelled,
            admin_notes := some ("Cancelled: " ++ reason.getD "User requested cancellation") },
          d1))
    ∧ (∀ b1 b2, (cancel_order o d reason b1).map Prod.fst
        = (cancel_order o d reason b2).map Prod.fst) := by
  intro o d reason
  refine ⟨?_, ?_, ?_⟩
  · intro h b
    unfold cancel_order
    rw [if_pos h]
  · intro h1 h2 b
    unfold cancel_order
    rw [if_neg (by tauto)]
    exact ⟨_, rfl⟩
  · intro b1 b2
    unfold cancel_order
    by_cases h : o.order_status = OrderStatus.delivered ∨ o.order_status = OrderStatus.cancelled
    · simp only [if_pos h]
    · simp only [if_neg h]
      simp [Except.map]

/-- C5 witness: the cancel theorem applied at a delivered order (request
rejected) and at a fresh confirmed order with a booked delivery, once
with the notification attempt raising and once without. -/
theorem cancel_order_terminal_guard_witness :
    (cancel_order deliveredOrder none none false
      = Except.error ("Cannot cancel order with status: " ++ deliveredOrder.order_status.value))
    ∧ (∃ d1, cancel_order baseOrder (some sampleDelivery) (some "changed my mind") true
      = Except.ok ({ baseOrder with
          order_status := OrderStatus.cancelled,
          admin_notes := some ("Cancelled: " ++ (some "changed my mind").getD "User requested cancellation") },
        d1))
    ∧ (cancel_order baseOrder (some sampleDelivery) none true).map Prod.fst
      = (cancel_order baseOrder (some sampleDelivery) none false).map Prod.fst :=
  ⟨(cancel_order_terminal_guard deliveredOrder none none).1 (Or.inl (by decide)) false,
   (cancel_order_terminal_guard baseOrder (some sampleDelivery) (some "changed my mind")).2.1
      (by decide) (by decide) true,
   (cancel_order_terminal_guard baseOrder (some sampleDelivery) none).2.2 true false⟩

/-- C7 (amended): an invalid signature is a hard failure surfaced to the
caller: the service reports an explicit Invalid signature error, the
endpoint answers an unverified failure body, and the order row is left
completely unchanged; in particular the payment status is not moved to
failed, it keeps its previous value. -/
theorem invalid_signature_hard_failure :
    ∀ (hmacSig sig : String) (fe : Bool) (ro rp : String) (o : Option OrderState)
      (ship : Option ShipmentResult) (now : Nat),
    hmacSig ≠ sig →
    PaymentService.verify_payment true hmacSig sig fe
      = ⟨false, false, some "Invalid signature"⟩
    ∧ verify_razorpay_payment ro rp (PaymentService.verify_payment true hmacSig sig fe) o ship now
      = ⟨o, none, ⟨false, false, "Payment verification failed"⟩, true⟩ := by
  intro hmacSig sig fe ro rp o ship now hne
  have h1 : PaymentService.verify_payment true hmacSig sig fe
      = ⟨false, false, some "Invalid signature"⟩ := by
    unfold PaymentService.verify_payment
    rw [if_pos rfl, if_neg hne]
  refine ⟨h1, ?_⟩
  rw [h1]
  unfold verify_razorpay_payment
  rw [if_neg (by simp)]

/-- C7 witness: the hard-failure theorem applied at a concrete mismatched
signature pair on a pending order. -/
theorem invalid_signature_hard_failure_witness :
    PaymentService.verify_payment true "aaa111" "bbb222" false
      = ⟨false, false, some "Invalid signature"⟩
    ∧ verify_razorpay_payment "ro_1" "rp_1"
        (PaymentService.verify_payment true "aaa111" "bbb222" false) (some baseOrder) none 5
      = ⟨some baseOrder, none, ⟨false, false, "Payment verification failed"⟩, true⟩ :=
  invalid_signature_hard_failure "aaa111" "bbb222" false "ro_1" "rp_1" (some baseOrder) none 5
    (by decide)

/-- C7 counterexample: after a failed signature verification the order
payment status is still pending, not failed, so the claim that the
payment status is Failed afterwards does not hold. -/
theorem invalid_signature_status_counterexample :
    (verify_razorpay_payment "ro_1" "rp_1"
        (PaymentService.verify_payment true "aaa111" "bbb222" false) (some baseOrder) none 5).order
      = some baseOrder
    ∧ baseOrder.payment_status = PaymentStatus.pending
    ∧ PaymentStatus.pending ≠ PaymentStatus.failed := by
  exact ⟨by decide, by decide, by decide⟩

/-- C6 (amended): when shipment creation fails during order creation the
order stays confirmed (not processing), a failure note is recorded in
the admin notes, and the caller receives an HTTP 500 although the order
row is already committed; when it fails during payment verification the
order also stays confirmed, no note is recorded, and the caller still
receives a success body. -/
theorem shipment_failure_behavior :
    (∀ (req : CreateOrderRequest) (sv : Option ServiceabilityResult) (sr : ShipmentResult)
       (wc : String) (now : Nat),
      req.total = none → sr.success = false →
      (create_order req sv (some sr) wc now).order.order_status = OrderStatus.confirmed
      ∧ (create_order req sv (some sr) wc now).order.admin_notes
        = some ("Shiprocket Failed (Live): " ++ reprStr sr)
      ∧ (create_order req sv (some sr) wc now).response
        = Except.error
            ("Order placed but shipment booking failed. Please retry later or contact support. Error: "
              ++ sr.message.getD "Shiprocket failed to create shipment."))
    ∧ (∀ (ro rp : String) (vr : PaymentVerifyResult) (o : OrderState) (sr : ShipmentResult)
        (now : Nat),
      vr.verified = true → optTruthy o.shiprocket_order_id = false → sr.success = false →
      (verify_razorpay_payment ro rp vr (some o) (some sr) now).order
        = some { o with
            payment_status := PaymentStatus.paid,
            payment_method := "online",
            razorpay_payment_id := some rp,
            razorpay_order_id := some ro,
            order_status := OrderStatus.confirmed }
      ∧ (verify_razorpay_payment ro rp vr (some o) (some sr) now).response.success = true) := by
  constructor
  · intro req sv sr wc now ht hf
    refine ⟨?_, ?_, ?_⟩ <;> simp [create_order, ht, hf]
  · intro ro rp vr o sr now hv ht hf
    constructor <;> simp [verify_razorpay_payment, hv, ht, hf]

/-- C6 witness: the failure-path theorem applied at a concrete request
with a failing shipment adapter, and at a concrete verified payment with
a failing shipment adapter. -/
theorem shipment_failure_behavior_witness :
    ((create_order reqNoTotal none (some failShipment) "Fatehpur" 5).order.order_status
        = OrderStatus.confirmed
      ∧ (create_order reqNoTotal none (some failShipment) "Fatehpur" 5).order.admin_notes
        = some ("Shiprocket Failed (Live): " ++ reprStr failShipment)
      ∧ (create_order reqNoTotal none (some failShipment) "Fatehpur" 5).response
        = Except.error
            ("Order placed but shipment booking failed. Please retry later or contact support. Error: "
              ++ failShipment.message.getD "Shiprocket failed to create shipment."))
    ∧ ((verify_razorpay_payment "ro_1" "rp_1" ⟨true, true, none⟩ (some baseOrder)
          (some failShipment) 5).order
        = some { baseOrder with
            payment_status := PaymentStatus.paid,
            payment_method := "online",
            razorpay_payment_id := some "rp_1",
            razorpay_order_id := some "ro_1",
            order_status := OrderStatus.confirmed }
      ∧ (verify_razorpay_payment "ro_1" "rp_1" ⟨true, true, none⟩ (some baseOrder)
          (some failShipment) 5).response.success = true) :=
  ⟨shipment_failure_behavior.1 reqNoTotal none failShipment "Fatehpur" 5 (by decide) (by decide),
   shipment_failure_behavior.2 "ro_1" "rp_1" ⟨true, true, none⟩ baseOrder failShipment 5
      (by decide) (by decide) (by decide)⟩

/-- C6 counterexample: a failed shipment-creation attempt during order
creation does not advance the order to processing and does raise an
error to the caller, contradicting the claimed never-fail behavior. -/
theorem shipment_failure_counterexample :
    (create_order reqNoTotal none (some failShipment) "Fatehpur" 5).order.order_status
      ≠ OrderStatus.processing
    ∧ (create_order reqNoTotal none (some failShipment) "Fatehpur" 5).response
      = Except.error
          ("Order placed but shipment booking failed. Please retry later or contact support. Error: courier not assigned") := by
  exact ⟨by decide, by rfl⟩

/-- C9 (amended): a created order starts with fulfillment status
confirmed (not pending), payment status cod for cash orders and pending
otherwise, and its order reference is PD followed by the creation
second, hence determined by the creation second alone. -/
theorem create_order_initial_state :
    ∀ (req : CreateOrderRequest) (sv : Option ServiceabilityResult)
      (ship : Option ShipmentResult) (wc : String) (now : Nat),
    (create_order req sv ship wc now).committed_order.order_status = OrderStatus.confirmed
    ∧ (create_order req sv ship wc now).committed_order.payment_status
      = (if req.paymentMethod = "cod" then PaymentStatus.cod else PaymentStatus.pending)
    ∧ (create_order req sv ship wc now).committed_order.order_id = "PD" ++ Nat.repr now := by
  intro req sv ship wc now
  cases ht : req.total with
  | some t => simp [create_order, ht, generate_order_id]
  | none =>
    cases ship with
    | none => simp [create_order, ht, generate_order_id]
    | some sr =>
      by_cases hs : sr.success = true <;> simp [create_order, ht, hs, generate_order_id]

/-- C9 counterexample: at creation the committed order row is already
confirmed, not pending, and two different requests created within the
same second receive the same order reference. -/
theorem order_initial_state_counterexample :
    (create_order reqNoTotal none none "Fatehpur" 5).committed_order.order_status
      = OrderStatus.confirmed
    ∧ OrderStatus.confirmed ≠ OrderStatus.pending
    ∧ reqWithTotal ≠ reqNoTotal
    ∧ (create_order reqWithTotal none none "Fatehpur" 5).committed_order.order_id
      = (create_order reqNoTotal none none "Fatehpur" 5).committed_order.order_id := by
  exact ⟨by decide, by decide, by decide, by rfl⟩

/-- C10: any create-order request that carries a client-side total makes
the success path unreachable: the shipment payload reads the weight
variable that is only assigned when no client total was sent, so the
handler always ends in the generic internal error, after the order row
and its items were committed and with no shipment booked. -/
theorem create_order_client_total_unreachable :
    ∀ (req : CreateOrderRequest) (sv : Option ServiceabilityResult)
      (ship : Option ShipmentResult) (wc : String) (now : Nat),
    req.total ≠ none →
    (create_order req sv ship wc now).response
      = Except.error "Internal server error during order creation."
    ∧ (create_order req sv ship wc now).order
      = (create_order req sv ship wc now).committed_order
    ∧ (create_order req sv ship wc now).delivery = none
    ∧ (create_order req sv ship wc now).order.waybill_number = none := by
  intro req sv ship wc now h
  cases ht : req.total with
  | none => exact absurd ht h
  | some t => simp [create_order, ht]

/-- C10 witness: the unreachability theorem applied at a concrete request
that carries a client total, with a shipment adapter that would have
succeeded. -/
theorem create_order_client_total_unreachable_witness :
    (create_order reqWithTotal none (some okShipment) "Fatehpur" 5).response
      = Except.error "Internal server error during order creation."
    ∧ (create_order reqWithTotal none (some okShipment) "Fatehpur" 5).order
      = (create_order reqWithTotal none (some okShipment) "Fatehpur" 5).committed_order
    ∧ (create_order reqWithTotal none (some okShipment) "Fatehpur" 5).delivery = none
    ∧ (create_order reqWithTotal none (some okShipment) "Fatehpur" 5).order.waybill_number = none :=
  create_order_client_total_unreachable reqWithTotal none (some okShipment) "Fatehpur" 5
    (by decide)

end Backend
